import Mathlib

/-!
# Verification of the RDU-BOT moderation guard, timers and auto-responder

Shallow embedding of the decision logic of the RDU-BOT Discord bot
(`RDU_BOT_CODE.py`, `main.py`, and the unnamed variant file), followed by
theorems settling the specification's claims about it.

Conventions of the embedding:
* A Discord member is reduced to the data the guards inspect: its id, the
  position of its top role (higher = more senior) and whether it is the
  guild owner.  Member equality in the Python client library compares ids.
* Host-platform mutations (`member.kick()`, `channel.purge()`, message
  deletion) are not performed; instead each handler takes the outcome the
  platform would produce (success / Forbidden / other error) and we record
  whether the mutation call was reached and what the handler replies.
-/

namespace RduBot

/-- A member as seen by the moderation guards: identity, top-role position
(higher = more privileged) and the guild-owner flag. -/
structure Member where
  id : Nat
  topRole : Nat
  isOwner : Bool
deriving DecidableEq, Repr

/-- Outcome of attempting the guarded host-platform mutation. -/
inductive MutationOutcome where
  | ok
  | forbidden
deriving DecidableEq, Repr

/-- Tagged result of a guarded moderation command. -/
inductive CmdResult where
  | rejected (reason : String)
  | success (summary : String)
  | failed (msg : String)
deriving DecidableEq, Repr

/-- `ModerationCommands._check_hierarchy` from `RDU_BOT_CODE.py`
(lines 532-545): returns `some errorMessage` when the action is not
permitted, `none` when all three checks pass.  The checks run in order:
self-target, moderator seniority (owner-exempt), bot seniority. -/
def check_hierarchy (moderator target : Member) (botTop : Nat) (action : String) :
    Option String :=
  if target.id = moderator.id then
    some ("You cannot " ++ action ++ " yourself.")
  else if moderator.topRole ≤ target.topRole ∧ moderator.isOwner = false then
    some ("You cannot " ++ action ++ " a member with an equal or higher role than you.")
  else if target.topRole ≥ botTop then
    some ("I cannot " ++ action ++ " this member; my role is not high enough.")
  else
    none

/-- `kick_command` from `RDU_BOT_CODE.py` (lines 547-571): runs
`_check_hierarchy`; on a guard message it replies with the error and never
calls `member.kick`; otherwise it calls the mutation, turning a
`Forbidden` error into a permission-failure reply.  The `Bool` component
records whether `member.kick` was invoked. -/
def kick_command (moderator target : Member) (botTop : Nat)
    (outcome : MutationOutcome) : CmdResult × Bool :=
  match check_hierarchy moderator target botTop "kick" with
  | some msg => (CmdResult.rejected msg, false)
  | none =>
    match outcome with
    | MutationOutcome.ok =>
        (CmdResult.success ("Member Kicked"), true)
    | MutationOutcome.forbidden =>
        (CmdResult.failed "I do not have the necessary permissions to kick this user.", true)

/-- The guard of `kick` from the unnamed variant (part_000 lines 771-788
and 991-1007): rejects when the target's top role is equal or higher and
the moderator is not the guild owner.  No self-target check exists. -/
def kick_p0_guard (moderator target : Member) : Option String :=
  if target.topRole ≥ moderator.topRole ∧ moderator.isOwner = false then
    some "❌ Cannot kick someone with a higher or equal role!"
  else
    none

/-- `kick` from the unnamed variant (part_000 lines 991-1007): guard then
mutation; `Forbidden` becomes a permission reply.  The `Bool` records
whether `user.kick` was invoked. -/
def kick_p0 (moderator target : Member) (outcome : MutationOutcome) :
    CmdResult × Bool :=
  match kick_p0_guard moderator target with
  | some msg => (CmdResult.rejected msg, false)
  | none =>
    match outcome with
    | MutationOutcome.ok =>
        (CmdResult.success "✅ User Kicked", true)
    | MutationOutcome.forbidden =>
        (CmdResult.failed "❌ I don't have permission to kick this user!", true)

/-- The guard of `kick_command` from the unnamed variant (part_000 lines
385-393): rejects when the target's top role is equal or higher AND the
target is not the moderator themself — so a self-target passes the guard. -/
def kick_command_p0_guard (moderator target : Member) : Option String :=
  if target.topRole ≥ moderator.topRole ∧ target.id ≠ moderator.id then
    some "❌ You cannot kick this user because their role is equal to or higher than yours."
  else
    none

/-- Outcome of the mutation inside part_000's `kick_command`
(lines 394-409), which also catches generic exceptions. -/
inductive KickOutcome where
  | ok
  | forbidden
  | error (msg : String)
deriving DecidableEq, Repr

/-- What part_000's `kick_command` (lines 385-409) produces: the reply
text, whether the reply is ephemeral, and the audit-log embed title it
sends to the log channel (`none` when no log embed is sent). -/
structure KickResult where
  reply : String
  ephemeral : Bool
  audit : Option String
deriving DecidableEq, Repr

/-- `kick_command` from the unnamed variant (part_000 lines 385-409):
guard, then `member.kick` inside `try`; success sends a log embed,
`Forbidden` and generic errors reply ephemerally with no log embed.  The
`Bool` records whether `member.kick` was invoked. -/
def kick_command_p0 (moderator target : Member) (memberName reason : String)
    (outcome : KickOutcome) : KickResult × Bool :=
  match kick_command_p0_guard moderator target with
  | some msg => ({ reply := msg, ephemeral := true, audit := none }, false)
  | none =>
    match outcome with
    | KickOutcome.ok =>
        ({ reply := "✅ Kicked " ++ memberName ++ " for reason: `" ++ reason ++ "`.",
           ephemeral := false, audit := some "🚫 User Kicked" }, true)
    | KickOutcome.forbidden =>
        ({ reply := "❌ I do not have permission to kick that user.",
           ephemeral := true, audit := none }, true)
    | KickOutcome.error m =>
        ({ reply := "❌ An error occurred: `" ++ m ++ "`",
           ephemeral := true, audit := none }, true)

/-! ## Ephemeral response timer (`delete_after_30s`, RDU_BOT_CODE.py lines 44-54) -/

/-- What `message.delete()` does after the 30-second sleep. -/
inductive DeleteOutcome where
  | deleted
  | notFound
  | httpError (msg : String)
deriving DecidableEq, Repr

/-- Observable effect of one `delete_after_30s` run: the exception it lets
escape to the caller (if any) and the warning it logs (if any). -/
structure DeleteResult where
  raised : Option String
  logged : Option String
deriving DecidableEq, Repr

/-- `delete_after_30s` from `RDU_BOT_CODE.py` (lines 44-54): tries to
delete the message; `discord.errors.NotFound` is passed over silently,
any other `discord.HTTPException` is logged as a warning.  Nothing is
re-raised. -/
def delete_after_30s : DeleteOutcome → DeleteResult
  | DeleteOutcome.deleted => { raised := none, logged := none }
  | DeleteOutcome.notFound => { raised := none, logged := none }
  | DeleteOutcome.httpError m =>
      { raised := none, logged := some ("Failed to delete message: " ++ m) }

/-! ## Keyword auto-responder (`main.py` lines 234-243 plus spec §4.3) -/

/-- One auto-responder rule: the stored trigger keyword and the canned
response, as stored in `bot.detection_settings[guild_id]`. -/
structure ARRule where
  keyword : String
  response : String
deriving DecidableEq, Repr

/-- `ADMIN_ID` from `main.py` line 31. -/
def mainAdminId : Nat := 1095005926534168646

/-- `bot.detection_settings`: a Python dict keyed by guild id, embedded as
an association list. -/
def DetectionSettings : Type := List (Nat × ARRule)

/-- Dict read `ds.get(g)`: first binding of the key. -/
def dsGet (ds : DetectionSettings) (g : Nat) : Option ARRule :=
  match ds with
  | [] => none
  | (k, r) :: rest => if k = g then some r else dsGet rest g

/-- Dict write `ds[g] = r`: replace the binding of the key in place, or
append a fresh binding when the key is absent. -/
def dsSet (ds : DetectionSettings) (g : Nat) (r : ARRule) : DetectionSettings :=
  match ds with
  | [] => [(g, r)]
  | (k, r0) :: rest =>
    if k = g then (g, r) :: rest
    else (k, r0) :: dsSet rest g r

/-- Dict removal `ds.pop(g, None)`: drop every binding of the key. -/
def dsPop (ds : DetectionSettings) (g : Nat) : DetectionSettings :=
  match ds with
  | [] => []
  | (k, r0) :: rest => if k = g then dsPop rest g else (k, r0) :: dsPop rest g

/-- `set_ar` (the `/set_autoresponse` handler, `main.py` lines 234-238):
a non-admin invoker returns early with no state change and no reply; the
admin stores the keyword/response pair verbatim and replies "✅ Set".
Returns the new store and the list of replies sent. -/
def set_ar (invoker : Nat) (guildId : Nat) (keyword response : String)
    (ds : DetectionSettings) : DetectionSettings × List String :=
  if invoker ≠ mainAdminId then (ds, [])
  else (dsSet ds guildId { keyword := keyword, response := response }, ["✅ Set"])

/-- `res_ar` (the `/reset_autoresponse` handler, `main.py` lines 240-243):
no authorization check; pops the guild's rule and replies "🗑️ Reset". -/
def res_ar (_invoker : Nat) (guildId : Nat) (ds : DetectionSettings) :
    DetectionSettings × List String :=
  (dsPop ds guildId, ["🗑️ Reset"])

/-- Does `pre` begin `l`? (Python string containment, leading case.) -/
def leadMatch : List Char → List Char → Bool
  | [], _ => true
  | _ :: _, [] => false
  | a :: as, b :: bs => a = b && leadMatch as bs

/-- Does `needle` occur contiguously in `hay`? (Python `needle in hay`.) -/
def subMatch (needle : List Char) : List Char → Bool
  | [] => leadMatch needle []
  | c :: rest => leadMatch needle (c :: rest) || subMatch needle rest

/-- Substring containment on strings, Python's `needle in hay`. -/
def strContains (hay needle : String) : Bool :=
  subMatch needle.data hay.data

/-- Python `s.lower()` (ASCII case folding, as `Char.toLower` performs). -/
def lowerStr (s : String) : String :=
  String.mk (s.data.map Char.toLower)

/-- Modelled from the spec: no incoming-message handler reading
`detection_settings` exists under `src/` (the store is only written by
`set_ar`/`res_ar`), so the responder lookup is taken from spec §4.3: if a
rule exists for the community and the lower-cased incoming text contains
the stored keyword as a substring, return the stored response; otherwise
return nothing. -/
def on_incoming_text (ds : DetectionSettings) (guildId : Nat) (text : String) :
    Option String :=
  match dsGet ds guildId with
  | none => none
  | some r => if strContains (lowerStr text) r.keyword then some r.response else none

/-! ## Purge / clear bounds -/

/-- `purge_command` from `RDU_BOT_CODE.py` (lines 691-718): the `count`
parameter is declared `app_commands.Range[int, 1, 100]`, so the platform
rejects out-of-range input before the handler runs; `some limit` is the
limit passed to `interaction.channel.purge`, `none` means no deletion
call is made. -/
def purge_command_limit (count : Int) : Option Int :=
  if 1 ≤ count ∧ count ≤ 100 then some count else none

/-- `clear` from the unnamed variant (part_000 lines 808-822): `amount`
is declared `app_commands.Range[int, 1, 100]`, same bound enforcement. -/
def clear_p0_limit (amount : Int) : Option Int :=
  if 1 ≤ amount ∧ amount ≤ 100 then some amount else none

/-- `clear` from `main.py` (lines 90-93): `amount` is a plain `int` with
no declared range; every invocation reaches
`it.channel.purge(limit=amount)` with the raw amount. -/
def clear_main_limit (amount : Int) : Option Int :=
  some amount

/-! ## Startup token checks -/

/-- What a startup path does before (or instead of) connecting. -/
structure StartupTrace where
  diagnostics : List String
  exited : Bool
  ranBot : Bool
deriving DecidableEq, Repr

/-- The token check of the unnamed variant (part_000 lines 42-47): a
missing token prints a diagnostic and calls `sys.exit(1)`, so `bot.run`
is never reached; with a token present the script proceeds to
`bot.run(DISCORD_TOKEN)`. -/
def p0_startup (token : Option String) : StartupTrace :=
  match token with
  | none =>
      { diagnostics := ["FATAL ERROR: Discord bot token not found in environment variables."],
        exited := true, ranBot := false }
  | some _ => { diagnostics := [], exited := false, ranBot := true }

/-- The startup path of `RDU_BOT_CODE.py` (module-level check at lines
17-19 plus the `__main__` block at lines 1326-1338): a missing token
prints one diagnostic and logs another, but nothing exits — the block
still constructs the bot and calls `bot.run(token)` with the missing
token. -/
def rdu_startup (token : Option String) : StartupTrace :=
  match token with
  | none =>
      { diagnostics := ["FATAL ERROR: Discord bot token not found in environment variables.",
                        "Token missing. Cannot run."],
        exited := false, ranBot := true }
  | some _ => { diagnostics := [], exited := false, ranBot := true }

/-! ## Store invariant and helper lemmas -/

/-- The guild ids bound in the store. -/
def dsKeys (ds : DetectionSettings) : List Nat := ds.map Prod.fst

/-- Spec §3 invariant: at most one auto-responder rule per community. -/
def atMostOneRule (ds : DetectionSettings) : Prop := (dsKeys ds).Nodup

instance (ds : DetectionSettings) : Decidable (atMostOneRule ds) := by
  unfold atMostOneRule; infer_instance

theorem dsGet_dsSet (ds : DetectionSettings) (g : Nat) (r : ARRule) :
    dsGet (dsSet ds g r) g = some r := by
  induction ds with
  | nil => simp [dsSet, dsGet]
  | cons p rest ih =>
    obtain ⟨k, r0⟩ := p
    by_cases hk : k = g
    · simp [dsSet, hk, dsGet]
    · simp [dsSet, hk, dsGet, ih]

theorem dsKeys_dsSet (g : Nat) (r : ARRule) :
    ∀ ds : DetectionSettings,
      dsKeys (dsSet ds g r) = if g ∈ dsKeys ds then dsKeys ds else dsKeys ds ++ [g] := by
  intro ds
  induction ds with
  | nil => simp [dsSet, dsKeys]
  | cons p rest ih =>
    obtain ⟨k, r0⟩ := p
    by_cases hk : k = g
    · subst hk
      simp [dsSet, dsKeys]
    · have hne : ¬ g = k := fun h => hk h.symm
      simp only [dsSet, if_neg hk, dsKeys, List.map_cons, List.mem_cons, hne, false_or]
      simp only [dsKeys] at ih
      rw [ih]
      by_cases hmem : g ∈ List.map Prod.fst rest
      · simp [hmem]
      · simp [hmem]

theorem nodup_dsSet (ds : DetectionSettings) (g : Nat) (r : ARRule)
    (h : atMostOneRule ds) : atMostOneRule (dsSet ds g r) := by
  unfold atMostOneRule at *
  rw [dsKeys_dsSet]
  by_cases hmem : g ∈ dsKeys ds
  · simpa [hmem] using h
  · rw [if_neg hmem]
    exact List.Nodup.append h (List.nodup_singleton g)
      (by simpa [List.disjoint_singleton] using hmem)

theorem dsPop_sublist (g : Nat) :
    ∀ ds : DetectionSettings, List.Sublist (dsPop ds g) ds := by
  intro ds
  induction ds with
  | nil => simp [dsPop]
  | cons p rest ih =>
    obtain ⟨k, r0⟩ := p
    by_cases hk : k = g
    · simp only [dsPop, if_pos hk]
      exact List.Sublist.cons _ ih
    · simp only [dsPop, if_neg hk]
      exact List.Sublist.cons₂ _ ih

theorem nodup_dsPop (ds : DetectionSettings) (g : Nat)
    (h : atMostOneRule ds) : atMostOneRule (dsPop ds g) := by
  unfold atMostOneRule at *
  exact List.Nodup.sublist (List.Sublist.map Prod.fst (dsPop_sublist g ds)) h

theorem dsGet_dsPop (ds : DetectionSettings) (g : Nat) :
    dsGet (dsPop ds g) g = none := by
  induction ds with
  | nil => simp [dsPop, dsGet]
  | cons p rest ih =>
    obtain ⟨k, r0⟩ := p
    by_cases hk : k = g
    · simpa [dsPop, hk] using ih
    · simp [dsPop, hk, dsGet, ih]

/-! ## Claim theorems -/

/-- C1 (counterexample): the claim as stated fails when the actor IS the
target: the pair (m, m) with m = ⟨1, 5, false⟩ satisfies the premise
(actor seniority ≤ target seniority, actor not owner), yet
`_check_hierarchy` rejects with the self-target reason, not with the
"insufficient seniority" (equal-or-higher-role) reason. -/
theorem C1_self_pair_gets_self_reason :
    (Member.mk 1 5 false).topRole ≤ (Member.mk 1 5 false).topRole ∧
    (Member.mk 1 5 false).isOwner = false ∧
    check_hierarchy (Member.mk 1 5 false) (Member.mk 1 5 false) 10 "kick" =
      some "You cannot kick yourself." ∧
    ("You cannot kick yourself." : String) ≠
      "You cannot kick a member with an equal or higher role than you." ∧
    (kick_command (Member.mk 1 5 false) (Member.mk 1 5 false) 10 MutationOutcome.ok).2
      = false := by
  refine ⟨le_refl _, rfl, by decide, by decide, by decide⟩

/-- C1 (amended): for every (actor, target) pair where the actor's top
role is ≤ the target's and the actor is not the owner, the guard rejects
(`_check_hierarchy` returns an error message) and the kick mutation is
never invoked — both in `RDU_BOT_CODE.py`'s `kick_command` and in
part_000's `kick`; when additionally the target is not the actor
themself, the reason is the "insufficient seniority"
(equal-or-higher-role) message. -/
theorem insufficient_seniority_rejected
    (moderator target : Member) (botTop : Nat) (action : String)
    (outcome : MutationOutcome)
    (hle : moderator.topRole ≤ target.topRole)
    (hown : moderator.isOwner = false) :
    (∃ msg, check_hierarchy moderator target botTop action = some msg) ∧
    (kick_command moderator target botTop outcome).2 = false ∧
    (kick_p0 moderator target outcome).2 = false ∧
    (target.id ≠ moderator.id →
      check_hierarchy moderator target botTop action =
        some ("You cannot " ++ action ++ " a member with an equal or higher role than you.")) := by
  have hguard : ∀ a : String, ∃ msg, check_hierarchy moderator target botTop a = some msg := by
    intro a
    by_cases hid : target.id = moderator.id
    · exact ⟨"You cannot " ++ a ++ " yourself.", by simp [check_hierarchy, hid]⟩
    · exact ⟨"You cannot " ++ a ++ " a member with an equal or higher role than you.",
        by simp [check_hierarchy, hid, hle, hown]⟩
  obtain ⟨msg, hmsg⟩ := hguard "kick"
  refine ⟨hguard action, ?_, ?_, ?_⟩
  · simp [kick_command, hmsg]
  · simp [kick_p0, kick_p0_guard, ge_iff_le, hle, hown]
  · intro hid
    simp [check_hierarchy, hid, hle, hown]

/-- C1 (witness): a concrete non-owner actor with a strictly lower top
role than the target is rejected with the seniority reason and the
mutation is not invoked. -/
theorem insufficient_seniority_rejected_witness :
    (∃ msg, check_hierarchy (Member.mk 1 3 false) (Member.mk 2 5 false) 10 "kick" = some msg) ∧
    (kick_command (Member.mk 1 3 false) (Member.mk 2 5 false) 10 MutationOutcome.ok).2 = false ∧
    (kick_p0 (Member.mk 1 3 false) (Member.mk 2 5 false) MutationOutcome.ok).2 = false ∧
    ((Member.mk 2 5 false).id ≠ (Member.mk 1 3 false).id →
      check_hierarchy (Member.mk 1 3 false) (Member.mk 2 5 false) 10 "kick" =
        some ("You cannot " ++ "kick" ++ " a member with an equal or higher role than you.")) :=
  insufficient_seniority_rejected (Member.mk 1 3 false) (Member.mk 2 5 false) 10 "kick"
    MutationOutcome.ok (by decide) rfl

/-- C2 (counterexample): part_000's `kick_command` (lines 385-393,
guard `member.top_role >= user.top_role and member != user`) performs no
self-target check: a self-invocation passes the guard, the kick mutation
IS invoked, and on success a log embed is even sent — contradicting the
claim that every self-target invocation is rejected with the self-target
reason and the mutation never invoked. -/
theorem C2_p0_self_kick_proceeds :
    kick_command_p0_guard (Member.mk 1 5 false) (Member.mk 1 5 false) = none ∧
    (kick_command_p0 (Member.mk 1 5 false) (Member.mk 1 5 false) "m" "r" KickOutcome.ok).2
      = true ∧
    (kick_command_p0 (Member.mk 1 5 false) (Member.mk 1 5 false) "m" "r" KickOutcome.ok).1.audit
      = some "🚫 User Kicked" := by
  refine ⟨by decide, by decide, by decide⟩

/-- C2 (amended): in `RDU_BOT_CODE.py`'s guard (`_check_hierarchy` and
the `kick_command` built on it), every invocation where the target equals
the actor is rejected with the self-target reason
"You cannot <action> yourself." regardless of seniority, and the mutation
is not invoked.  (part_000's `kick_command` at lines 385-393 performs no
self-check and proceeds to kick.) -/
theorem self_target_rejected
    (moderator target : Member) (botTop : Nat) (action : String)
    (outcome : MutationOutcome) (hid : target.id = moderator.id) :
    check_hierarchy moderator target botTop action =
      some ("You cannot " ++ action ++ " yourself.") ∧
    (kick_command moderator target botTop outcome).2 = false := by
  have h : ∀ a : String, check_hierarchy moderator target botTop a =
      some ("You cannot " ++ a ++ " yourself.") := by
    intro a; simp [check_hierarchy, hid]
  exact ⟨h action, by simp [kick_command, h "kick"]⟩

/-- C2 (witness): a concrete self-target (an owner with a high role, so
neither seniority check could fire first) is rejected with the
self-target reason and the mutation is not invoked. -/
theorem self_target_rejected_witness :
    check_hierarchy (Member.mk 7 9 true) (Member.mk 7 9 true) 3 "ban" =
      some ("You cannot " ++ "ban" ++ " yourself.") ∧
    (kick_command (Member.mk 7 9 true) (Member.mk 7 9 true) 3 MutationOutcome.ok).2 = false :=
  self_target_rejected (Member.mk 7 9 true) (Member.mk 7 9 true) 3 "ban"
    MutationOutcome.ok rfl

/-- C3: `_check_hierarchy` evaluates its three checks in the fixed order
self-target, actor seniority (owner-exempt), bot seniority, returning the
first failing check's reason; and in the concrete scenario actor
seniority 10, target seniority 2, bot seniority 1, the result is the
bot-seniority-too-low reason. -/
theorem check_hierarchy_order :
    (∀ (moderator target : Member) (botTop : Nat) (action : String),
      target.id = moderator.id →
        check_hierarchy moderator target botTop action =
          some ("You cannot " ++ action ++ " yourself.")) ∧
    (∀ (moderator target : Member) (botTop : Nat) (action : String),
      target.id ≠ moderator.id →
      moderator.topRole ≤ target.topRole → moderator.isOwner = false →
        check_hierarchy moderator target botTop action =
          some ("You cannot " ++ action ++ " a member with an equal or higher role than you.")) ∧
    (∀ (moderator target : Member) (botTop : Nat) (action : String),
      target.id ≠ moderator.id →
      ¬ (moderator.topRole ≤ target.topRole ∧ moderator.isOwner = false) →
      target.topRole ≥ botTop →
        check_hierarchy moderator target botTop action =
          some ("I cannot " ++ action ++ " this member; my role is not high enough.")) ∧
    check_hierarchy (Member.mk 1 10 false) (Member.mk 2 2 false) 1 "kick" =
      some "I cannot kick this member; my role is not high enough." := by
  refine ⟨?_, ?_, ?_, by decide⟩
  · intro moderator target botTop action hid
    simp [check_hierarchy, hid]
  · intro moderator target botTop action hid hle hown
    simp [check_hierarchy, hid, hle, hown]
  · intro moderator target botTop action hid hsen hbot
    simp [check_hierarchy, hid, hsen, hbot]

/-- C3 (witness): the self-target check fires first on a concrete
self-invocation. -/
theorem check_hierarchy_order_witness :
    check_hierarchy (Member.mk 4 9 true) (Member.mk 4 2 true) 5 "mute" =
      some ("You cannot " ++ "mute" ++ " yourself.") :=
  check_hierarchy_order.1 (Member.mk 4 9 true) (Member.mk 4 2 true) 5 "mute" rfl

/-- C4 (counterexample): `set_ar` stores the keyword verbatim — it
neither lower-cases nor trims.  Setting the keyword " WIPE " stores
exactly " WIPE " (not "wipe"), and the incoming text "When is the WIPE?"
then fails to match under the spec-modelled responder lookup. -/
theorem C4_keyword_stored_verbatim :
    dsGet (set_ar mainAdminId 7 " WIPE " "resp" []).1 7 =
      some (ARRule.mk " WIPE " "resp") ∧
    (" WIPE " : String) ≠ "wipe" ∧
    on_incoming_text (set_ar mainAdminId 7 " WIPE " "resp" []).1 7 "When is the WIPE?"
      = none := by
  refine ⟨by decide, by decide, by decide⟩

/-- C4 (amended): `set_ar` stores the keyword exactly as supplied (no
lower-casing, no trimming); the responder lookup (modelled from spec
§4.3) lower-cases the incoming text and tests substring containment, so
whenever the stored rule's keyword occurs in the lower-cased text, the
stored response is returned — in particular a rule set with the
already-lowercase keyword "wipe" matches the text "When is the WIPE?". -/
theorem responder_matching
    (ds : DetectionSettings) (g : Nat) (text : String) (r : ARRule)
    (hget : dsGet ds g = some r)
    (hsub : strContains (lowerStr text) r.keyword = true) :
    (∀ kw resp ds0, dsGet (set_ar mainAdminId g kw resp ds0).1 g = some (ARRule.mk kw resp)) ∧
    on_incoming_text ds g text = some r.response ∧
    on_incoming_text (set_ar mainAdminId 7 "wipe" "See announcements" []).1 7
      "When is the WIPE?" = some "See announcements" := by
  refine ⟨?_, ?_, by decide⟩
  · intro kw resp ds0
    simp only [set_ar, ne_eq, not_true_eq_false, if_false]
    exact dsGet_dsSet ds0 g (ARRule.mk kw resp)
  · simp [on_incoming_text, hget, hsub]

/-- C4 (witness): spec scenario 9 — with the rule keyword "rules" and
response "See #rules" installed, the incoming text "what are the
rules??" returns "See #rules". -/
theorem responder_matching_witness :
    (∀ kw resp ds0, dsGet (set_ar mainAdminId 3 kw resp ds0).1 3 = some (ARRule.mk kw resp)) ∧
    on_incoming_text [(3, ARRule.mk "rules" "See #rules")] 3 "what are the rules??" =
      some "See #rules" ∧
    on_incoming_text (set_ar mainAdminId 7 "wipe" "See announcements" []).1 7
      "When is the WIPE?" = some "See announcements" :=
  responder_matching [(3, ARRule.mk "rules" "See #rules")] 3 "what are the rules??"
    (ARRule.mk "rules" "See #rules") (by decide) (by decide)

/-- C5 (counterexample): `clear` in `main.py` (lines 90-93) declares its
`amount` parameter as a plain int with no bounds, so a request with
count 150 reaches `it.channel.purge(limit=150)` — the deletion call IS
made with an out-of-bounds count. -/
theorem C5_main_clear_unbounded :
    clear_main_limit 150 = some 150 ∧ (100 : Int) < 150 := by
  refine ⟨rfl, by decide⟩

/-- C5 (amended): in `RDU_BOT_CODE.py`'s `purge_command` and part_000's
`clear`, the count is declared `Range[int, 1, 100]`, so any count outside
1–100 is rejected before a deletion call is made; `main.py`'s `clear`
has no bound and passes every count straight to `channel.purge`. -/
theorem purge_bounds
    (count : Int) (hout : count < 1 ∨ 100 < count) :
    purge_command_limit count = none ∧
    clear_p0_limit count = none ∧
    clear_main_limit count = some count := by
  have h : ¬ (1 ≤ count ∧ count ≤ 100) := by
    rcases hout with h | h
    · exact fun hc => absurd hc.1 (not_le.mpr h)
    · exact fun hc => absurd hc.2 (not_le.mpr h)
  exact ⟨by simp [purge_command_limit, h], by simp [clear_p0_limit, h], rfl⟩

/-- C5 (witness): count 150 is rejected by the bounded handlers but still
reaches the deletion call in `main.py`'s `clear`. -/
theorem purge_bounds_witness :
    purge_command_limit 150 = none ∧
    clear_p0_limit 150 = none ∧
    clear_main_limit 150 = some 150 :=
  purge_bounds 150 (Or.inr (by decide))

/-- C6: when the guarded kick mutation raises `Forbidden`, both handlers
produce the permission-specific failure reply instead of propagating (the
handlers are total functions of the outcome — no case re-raises), and
part_000's handler sends no audit-log embed for that invocation. -/
theorem forbidden_swallowed
    (moderator target : Member) (botTop : Nat) (memberName reason : String)
    (hg : check_hierarchy moderator target botTop "kick" = none)
    (hg0 : kick_command_p0_guard moderator target = none) :
    (kick_command moderator target botTop MutationOutcome.forbidden).1 =
      CmdResult.failed "I do not have the necessary permissions to kick this user." ∧
    (kick_command_p0 moderator target memberName reason KickOutcome.forbidden).1 =
      KickResult.mk "❌ I do not have permission to kick that user." true none := by
  exact ⟨by simp [kick_command, hg], by simp [kick_command_p0, hg0]⟩

/-- C6 (witness): a concrete invocation that passes both guards and then
hits `Forbidden` yields the permission-failure replies with no audit. -/
theorem forbidden_swallowed_witness :
    (kick_command (Member.mk 1 5 false) (Member.mk 2 3 false) 10 MutationOutcome.forbidden).1 =
      CmdResult.failed "I do not have the necessary permissions to kick this user." ∧
    (kick_command_p0 (Member.mk 1 5 false) (Member.mk 2 3 false) "m" "r" KickOutcome.forbidden).1 =
      KickResult.mk "❌ I do not have permission to kick that user." true none :=
  forbidden_swallowed (Member.mk 1 5 false) (Member.mk 2 3 false) 10 "m" "r"
    (by decide) (by decide)

/-- C7: `delete_after_30s` never lets a deletion error escape to its
caller — in particular a message already deleted out-of-band (`NotFound`)
is treated as success with no residual effect at all (nothing raised,
nothing logged) — and any other HTTP deletion error is only logged. -/
theorem delete_after_30s_never_raises :
    (∀ o : DeleteOutcome, (delete_after_30s o).raised = none) ∧
    delete_after_30s DeleteOutcome.notFound = DeleteResult.mk none none ∧
    (∀ m : String, (delete_after_30s (DeleteOutcome.httpError m)).logged =
      some ("Failed to delete message: " ++ m)) := by
  refine ⟨?_, rfl, fun m => rfl⟩
  intro o
  cases o <;> rfl

/-- C8: the rule store keeps at most one rule per community: the
key-uniqueness invariant is preserved by `set_ar` (any invoker) and
`res_ar`, and after two admin `set_ar` calls for the same community only
the second keyword/response pair is stored, so the responder lookup
matches only the second rule afterwards. -/
theorem one_rule_per_community
    (invoker g : Nat) (kw1 resp1 kw2 resp2 : String) (ds : DetectionSettings)
    (h : atMostOneRule ds) :
    (∀ kw resp, atMostOneRule (set_ar invoker g kw resp ds).1) ∧
    atMostOneRule (res_ar invoker g ds).1 ∧
    dsGet (set_ar mainAdminId g kw2 resp2 (set_ar mainAdminId g kw1 resp1 ds).1).1 g =
      some (ARRule.mk kw2 resp2) ∧
    (∀ text, on_incoming_text
        (set_ar mainAdminId g kw2 resp2 (set_ar mainAdminId g kw1 resp1 ds).1).1 g text =
      if strContains (lowerStr text) kw2 then some resp2 else none) := by
  have hadmin : ∀ (kw resp : String) (ds0 : DetectionSettings),
      (set_ar mainAdminId g kw resp ds0).1 = dsSet ds0 g (ARRule.mk kw resp) := by
    intro kw resp ds0
    simp [set_ar]
  have hsecond : dsGet (set_ar mainAdminId g kw2 resp2
      (set_ar mainAdminId g kw1 resp1 ds).1).1 g = some (ARRule.mk kw2 resp2) := by
    rw [hadmin, hadmin]
    exact dsGet_dsSet _ g (ARRule.mk kw2 resp2)
  refine ⟨?_, ?_, hsecond, ?_⟩
  · intro kw resp
    by_cases hinv : invoker = mainAdminId
    · subst hinv
      rw [hadmin]
      exact nodup_dsSet ds g _ h
    · simpa [set_ar, hinv] using h
  · exact nodup_dsPop ds g h
  · intro text
    simp [on_incoming_text, hsecond]

/-- C8 (witness): starting from a store that already has a rule for
community 3, setting two rules in sequence for community 3 leaves a
duplicate-free store whose lookup yields only the second pair. -/
theorem one_rule_per_community_witness :
    (∀ kw resp, atMostOneRule (set_ar 0 3 kw resp [(3, ARRule.mk "a" "b")]).1) ∧
    atMostOneRule (res_ar 0 3 [(3, ARRule.mk "a" "b")]).1 ∧
    dsGet (set_ar mainAdminId 3 "k2" "r2"
      (set_ar mainAdminId 3 "k1" "r1" [(3, ARRule.mk "a" "b")]).1).1 3 =
      some (ARRule.mk "k2" "r2") ∧
    (∀ text, on_incoming_text
        (set_ar mainAdminId 3 "k2" "r2"
          (set_ar mainAdminId 3 "k1" "r1" [(3, ARRule.mk "a" "b")]).1).1 3 text =
      if strContains (lowerStr text) "k2" then some "r2" else none) :=
  one_rule_per_community 0 3 "k1" "r1" "k2" "r2" [(3, ARRule.mk "a" "b")] (by decide)

/-- C9 (counterexample): in `RDU_BOT_CODE.py` a missing token does NOT
halt the process — the `__main__` block logs "Token missing. Cannot run."
but still proceeds to construct the bot and call `bot.run(token)`. -/
theorem C9_rdu_proceeds_without_token :
    (rdu_startup none).ranBot = true ∧ (rdu_startup none).exited = false := by
  exact ⟨rfl, rfl⟩

/-- C9 (amended): with the token missing, the part_000 variant prints a
diagnostic and halts immediately (`sys.exit(1)`) without ever reaching
`bot.run`; `RDU_BOT_CODE.py` prints/logs its diagnostics but does not
halt and still proceeds to call `bot.run` with the missing token. -/
theorem missing_token_startup :
    (p0_startup none).exited = true ∧
    (p0_startup none).ranBot = false ∧
    (p0_startup none).diagnostics ≠ [] ∧
    (rdu_startup none).exited = false ∧
    (rdu_startup none).ranBot = true ∧
    (rdu_startup none).diagnostics ≠ [] := by
  refine ⟨rfl, rfl, by decide, rfl, rfl, by decide⟩

/-- C10: `res_ar` performs no authorization check — every invoker gets
the rule removed and the "🗑️ Reset" reply — while `set_ar` for any
invoker other than `ADMIN_ID` returns early: no state change and no
reply at all. -/
theorem autoresponse_authorization
    (invoker g : Nat) (kw resp : String) (ds : DetectionSettings)
    (hinv : invoker ≠ mainAdminId) :
    set_ar invoker g kw resp ds = (ds, []) ∧
    (res_ar invoker g ds).2 = ["🗑️ Reset"] ∧
    dsGet (res_ar invoker g ds).1 g = none := by
  refine ⟨by simp [set_ar, hinv], rfl, ?_⟩
  exact dsGet_dsPop ds g

/-- C10 (witness): invoker 42 (not the admin id) changes nothing via
`set_ar` but fully clears the rule via `res_ar`. -/
theorem autoresponse_authorization_witness :
    set_ar 42 3 "k" "r" [(3, ARRule.mk "a" "b")] = ([(3, ARRule.mk "a" "b")], []) ∧
    (res_ar 42 3 [(3, ARRule.mk "a" "b")]).2 = ["🗑️ Reset"] ∧
    dsGet (res_ar 42 3 [(3, ARRule.mk "a" "b")]).1 3 = none :=
  autoresponse_authorization 42 3 "k" "r" [(3, ARRule.mk "a" "b")] (by decide)

end RduBot
